import Mathlib

/-!
Verification of the browser-automation repository's safety-gated action
dispatch, translated as a shallow embedding from the Python sources:

* `utils/safety_policy.py` — `SafetyPolicy` (blocked domains / keywords /
  URL patterns, session scope and limits, violation log);
* `utils/helpers.py` — coordinate denormalization;
* `utils/actions.py` — `_check_safety`, `_execute_action_internal`,
  `should_skip_screenshot`;
* `utils/visual_validator.py` — `_clean_json_response`,
  `_parse_validation_response`;
* `main.py` — the per-step agent loop in `run`.

Strings are modelled with Lean `String`; lowercasing uses `Char.toLower`
(the sources only ever compare ASCII data).  Wall-clock time is passed
explicitly: `now` and `start_time` are seconds, so Python's
`elapsed_minutes >= timeout_minutes` (real-valued division by 60) becomes
`60 * timeout_minutes ≤ elapsed_seconds`.  File/console output
(`_save_to_log`, `print`) is I/O outside the model; the in-memory
`violations` list is modelled exactly.
-/

/-! ## Wildcard matching

`SafetyPolicy._match_pattern` builds the regex
`pattern.replace(".", "\\.").replace("*", ".*")` and applies `re.search`;
`_is_domain_blocked` also uses `fnmatch.fnmatch` for the URL patterns.
Both regexes consist only of literal characters and `.*` gaps, so we model
a regex as a list of elements, each a literal character or a star. -/

/-- One element of the translated pattern: a literal character, or `.*`
(written `*` in the configuration patterns). -/
inductive RElem where
  | lit (c : Char)
  | star
deriving DecidableEq, Repr

/-- Try `f` on every suffix of the text (used to match a `.*` gap). -/
def tryDrops (f : List Char → Bool) : List Char → Bool
  | [] => f []
  | t :: ts => f (t :: ts) || tryDrops f ts

/-- Full match of a literal/star pattern against a text (the semantics of
`re.fullmatch` for regexes of this shape, hence also of `fnmatch` whose
translation of a `*`-only glob is exactly such a full-match regex). -/
def rFull : List RElem → List Char → Bool
  | [], ts => ts.isEmpty
  | RElem.lit c :: rs, ts =>
      match ts with
      | [] => false
      | t :: ts' => c == t && rFull rs ts'
  | RElem.star :: rs, ts => tryDrops (rFull rs) ts

/-- Translate a pattern string: `*` becomes a star, everything else is a
literal (the Python code escapes `.` before the regex conversion, so a dot
is literal there too). -/
def pattElems (p : String) : List RElem :=
  p.data.map (fun c => if c == '*' then RElem.star else RElem.lit c)

/-- `fnmatch.fnmatch(text, patt)` for the star-and-literal patterns used by
`BLOCKED_URL_PATTERNS` (glob full match). -/
def globMatch (text patt : String) : Bool :=
  rFull (pattElems patt) text.data

/-- `SafetyPolicy._match_pattern(text, patt)`: `re.search` of the translated
regex, i.e. a full match of `.* patt .*`. -/
def searchMatch (text patt : String) : Bool :=
  rFull (RElem.star :: (pattElems patt ++ [RElem.star])) text.data

/-- `str.lower()` restricted to the ASCII data the sources compare. -/
def lowerStr (s : String) : String :=
  String.mk (s.data.map Char.toLower)

/-- Whether `needle` is a leading segment of `hay`. -/
def startsWithCh : List Char → List Char → Bool
  | [], _ => true
  | _ :: _, [] => false
  | a :: as, b :: bs => a == b && startsWithCh as bs

/-- Whether `needle` occurs contiguously inside `hay`. -/
def hasSubListCh (needle : List Char) : List Char → Bool
  | [] => needle.isEmpty
  | c :: hs => startsWithCh needle (c :: hs) || hasSubListCh needle hs

/-- Python's `needle in hay` substring test. -/
def containsSubStr (hay needle : String) : Bool :=
  hasSubListCh needle.data hay.data

/-! ## Safety policy data (`utils/safety_policy.py`) -/

/-- `BLOCKED_DOMAINS` from `utils/safety_policy.py`. -/
def BLOCKED_DOMAINS : List String :=
  [ "paypal.com", "*.paypal.com", "stripe.com", "*.stripe.com",
    "razorpay.com", "*.razorpay.com", "paytm.com", "*.paytm.com",
    "checkout.stripe.com",
    "*bank*", "*banking*", "*.icicibank.com", "*.hdfcbank.com",
    "*.sbi.co.in", "*.chase.com", "*.wellsfargo.com", "*.bankofamerica.com",
    "account.google.com/delete", "myaccount.google.com/delete",
    "*.binance.com", "*.coinbase.com", "*.kraken.com" ]

/-- `BLOCKED_KEYWORDS` from `utils/safety_policy.py`. -/
def BLOCKED_KEYWORDS : List String :=
  [ "pay now", "make payment", "checkout", "place order", "confirm purchase",
    "buy now", "add to cart and checkout", "enter card", "credit card",
    "debit card", "cvv",
    "delete account", "delete all", "remove permanently",
    "cancel subscription", "unsubscribe all", "factory reset", "format drive",
    "enter password", "change password", "reset password", "enter otp",
    "enter pin", "social security",
    "transfer money", "send money", "withdraw", "bitcoin", "crypto",
    "wallet address" ]

/-- `BLOCKED_URL_PATTERNS` from `utils/safety_policy.py`. -/
def BLOCKED_URL_PATTERNS : List String :=
  [ "*checkout*", "*payment*", "*pay*", "*cart/checkout*", "*order/confirm*",
    "*delete*account*", "*close*account*" ]

/-- `SessionScope` dataclass. -/
structure SessionScope where
  allowed_domains : List String
  max_actions : Nat
  max_tokens : Nat
  timeout_minutes : Nat
  require_step_confirmation : Bool
deriving DecidableEq, Repr

/-- The dataclass defaults (`allowed_domains=[] , max_actions=100,
max_tokens=200000, timeout_minutes=30, require_step_confirmation=False`);
`main.run` builds exactly this scope when none is supplied. -/
def defaultScope : SessionScope :=
  { allowed_domains := []
    max_actions := 100
    max_tokens := 200000
    timeout_minutes := 30
    require_step_confirmation := false }

/-- `SafetyViolation` dataclass; the timestamp is the `now` passed to the
check (seconds). -/
structure SafetyViolation where
  timestamp : Nat
  violation_type : String
  action : String
  url : String
  details : String
  blocked : Bool
deriving DecidableEq, Repr

/-- The mutable fields of a `SafetyPolicy` instance. -/
structure PolicyState where
  scope : SessionScope
  action_count : Nat
  token_count : Nat
  violations : List SafetyViolation
  start_time : Nat
deriving DecidableEq, Repr

/-- `SafetyPolicy.__init__`. -/
def initPolicy (scope : SessionScope) (now : Nat) : PolicyState :=
  { scope := scope, action_count := 0, token_count := 0,
    violations := [], start_time := now }

/-- `SafetyPolicy._is_domain_blocked`: first loop over `BLOCKED_DOMAINS`
with `_match_pattern` (regex search), then over `BLOCKED_URL_PATTERNS` with
`fnmatch.fnmatch`; an empty URL is never blocked. -/
def isDomainBlocked (url : String) : Bool × String :=
  if url == "" then (false, "")
  else
    let u := lowerStr url
    match BLOCKED_DOMAINS.find? (fun p => searchMatch u p) with
    | some p => (true, "Domain matches blocked pattern: " ++ p)
    | none =>
        match BLOCKED_URL_PATTERNS.find? (fun p => globMatch u p) with
        | some p => (true, "URL matches blocked pattern: " ++ p)
        | none => (false, "")

/-- `SafetyPolicy._is_action_blocked`: keyword substring search over
`f"{action} {target_text}".lower()`. -/
def isActionBlocked (action target_text : String) : Bool × String :=
  let combined := lowerStr (action ++ " " ++ target_text)
  match BLOCKED_KEYWORDS.find? (fun k => containsSubStr combined (lowerStr k)) with
  | some k => (true, "Action contains blocked keyword: " ++ k)
  | none => (false, "")

/-- Python `repr` of a list of strings, as interpolated by the f-string in
`_is_in_scope` (quote escaping is not modelled; no configured domain
contains a quote). -/
def pyListRepr (l : List String) : String :=
  "[" ++ String.intercalate ", " (l.map (fun s => "'" ++ s ++ "'")) ++ "]"

/-- `SafetyPolicy._is_in_scope`: an empty allow-list means unrestricted;
otherwise the lowered URL must `_match_pattern` some `*domain*`. -/
def isInScope (s : PolicyState) (url : String) : Bool × String :=
  match s.scope.allowed_domains with
  | [] => (true, "")
  | _ :: _ =>
      let u := lowerStr url
      if s.scope.allowed_domains.any (fun d => searchMatch u ("*" ++ d ++ "*")) then
        (true, "")
      else
        (false, "URL not in allowed scope: " ++ pyListRepr s.scope.allowed_domains)

/-- `SafetyPolicy._check_limits`.  `elapsed = (now - start)/60 minutes`;
the comparison `elapsed >= timeout_minutes` is the exact rational condition
`60 * timeout_minutes ≤ elapsed_seconds`.  The `:.1f` float format of the
timeout reason is rendered with one truncated decimal digit. -/
def checkLimits (s : PolicyState) (now : Nat) : Bool × String :=
  if s.scope.max_actions ≤ s.action_count then
    (false, "Max actions exceeded: " ++ toString s.action_count ++ "/" ++
      toString s.scope.max_actions)
  else if s.scope.max_tokens ≤ s.token_count then
    (false, "Max tokens exceeded: " ++ toString s.token_count ++ "/" ++
      toString s.scope.max_tokens)
  else
    let elapsedSec := now - s.start_time
    if 60 * s.scope.timeout_minutes ≤ elapsedSec then
      (false, "Session timeout: " ++ toString (elapsedSec / 60) ++ "." ++
        toString (elapsedSec * 10 / 60 % 10) ++ "/" ++
        toString s.scope.timeout_minutes ++ " min")
    else (true, "")

/-- `SafetyPolicy._log_violation`: appends to the in-memory violation list
(the JSON file write in `_save_to_log` and the console print are I/O). -/
def logViolation (s : PolicyState) (vtype action url details : String)
    (now : Nat) : PolicyState :=
  { s with violations := s.violations ++
      [{ timestamp := now, violation_type := vtype, action := action,
         url := url, details := details, blocked := true }] }

/-- `SafetyPolicy.check_safety`: domain check, then keyword check, then
scope check (only for a non-empty URL), then limits; the first failing
check logs one violation and denies.  Returns
`(is_safe, reason, updated policy)`. -/
def checkSafety (s : PolicyState) (action url target_text : String)
    (now : Nat) : Bool × String × PolicyState :=
  let dres := isDomainBlocked url
  if dres.1 then
    (false, dres.2, logViolation s "blocked_domain" action url dres.2 now)
  else
    let kres := isActionBlocked action target_text
    if kres.1 then
      (false, kres.2, logViolation s "blocked_keyword" action url kres.2 now)
    else
      let sres := if url == "" then (true, "") else isInScope s url
      if sres.1 = false then
        (false, sres.2, logViolation s "scope_exceeded" action url sres.2 now)
      else
        let lres := checkLimits s now
        if lres.1 = false then
          (false, lres.2, logViolation s "limit_exceeded" action url lres.2 now)
        else (true, "", s)

/-- `SafetyPolicy.record_action`. -/
def recordAction (s : PolicyState) (tokens_used : Nat) : PolicyState :=
  { s with action_count := s.action_count + 1,
           token_count := s.token_count + tokens_used }


/-! ## Coordinate denormalization (`config.py`, `utils/helpers.py`) -/

/-- `SCREEN_WIDTH` default from `config.py` (env override not modelled). -/
def SCREEN_WIDTH : Nat := 1440

/-- `SCREEN_HEIGHT` default from `config.py`. -/
def SCREEN_HEIGHT : Nat := 900

/-- `helpers.denormalize_x`: `int(x / 1000 * width)` with
`width = screen_width or SCREEN_WIDTH` (`or` treats both `None` and `0` as
absent).  For the non-negative inputs the dispatcher passes, `int` of the
real quotient is the floor, i.e. Nat division. -/
def denormalize_x (x : Nat) (screen_width : Option Nat) : Nat :=
  let width := match screen_width with
    | none => SCREEN_WIDTH
    | some 0 => SCREEN_WIDTH
    | some w => w
  x * width / 1000

/-- `helpers.denormalize_y`, same shape as `denormalize_x`. -/
def denormalize_y (y : Nat) (screen_height : Option Nat) : Nat :=
  let height := match screen_height with
    | none => SCREEN_HEIGHT
    | some 0 => SCREEN_HEIGHT
    | some h => h
  y * height / 1000

/-! ## Action dispatch (`utils/actions.py`) -/

/-- The argument mapping of a function call, with one optional field per
key the dispatcher reads (`args.get(...)`).  Coordinates are the
non-negative normalized values the model supplies. -/
structure ActionArgs where
  x : Option Nat := none
  y : Option Nat := none
  text : Option String := none
  url : Option String := none
  press_enter : Option Bool := none
  key : Option String := none
  amount : Option Int := none
  delta_x : Option Int := none
  delta_y : Option Int := none
  scroll_x : Option Int := none
  scroll_y : Option Int := none
  direction : Option String := none
  query : Option String := none
deriving DecidableEq, Repr

/-- A primitive effect on the Playwright page, in the order the dispatcher
issues them. -/
inductive BrowserEffect where
  | goto (url : String)
  | back
  | forward
  | reload
  | mouseClick (x y : Nat)
  | mouseDblClick (x y : Nat)
  | mouseRightClick (x y : Nat)
  | mouseMove (x y : Nat)
  | wheel (dx dy : Int)
  | keyType (text : String)
  | keyPress (key : String)
  | sleep
  | solveCaptcha
deriving DecidableEq, Repr

/-- The fields of the result dict a claim can observe: the success flag,
the denormalized pixel coordinates echoed by pointer actions, the echoed
text/url, and the error string (other pure echo fields carry no
information beyond the arguments). -/
structure ExecResult where
  success : Bool
  x : Option Nat := none
  y : Option Nat := none
  text : Option String := none
  url : Option String := none
  error : Option String := none
deriving DecidableEq, Repr

/-- The page state the dispatcher consults. -/
structure PageState where
  url : String
  isClosed : Bool
deriving DecidableEq, Repr

/-- The `key_map` table of `actions._press_key`. -/
def keyMap : List (String × String) :=
  [ ("enter", "Enter"), ("return", "Enter"), ("tab", "Tab"),
    ("escape", "Escape"), ("esc", "Escape"), ("backspace", "Backspace"),
    ("delete", "Delete"), ("space", " "), ("arrowup", "ArrowUp"),
    ("arrowdown", "ArrowDown"), ("arrowleft", "ArrowLeft"),
    ("arrowright", "ArrowRight"), ("pageup", "PageUp"),
    ("pagedown", "PageDown"), ("home", "Home"), ("end", "End") ]

/-- `actions._type_text_at`. -/
def typeTextAt (args : ActionArgs) : ExecResult × List BrowserEffect :=
  let x := args.x.getD 0
  let y := args.y.getD 0
  let text := args.text.getD ""
  let pressEnter := args.press_enter.getD false
  let ax := denormalize_x x none
  let ay := denormalize_y y none
  let effects :=
    [BrowserEffect.mouseClick ax ay, BrowserEffect.keyPress "Control+A",
     BrowserEffect.keyPress "Backspace", BrowserEffect.keyType text] ++
    (if pressEnter then [BrowserEffect.keyPress "Enter"] else [])
  ({ success := true, text := some text, x := some ax, y := some ay }, effects)

/-- `actions._press_key`. -/
def pressKey (args : ActionArgs) : ExecResult × List BrowserEffect :=
  let key := args.key.getD ""
  let mapped :=
    match keyMap.find? (fun kv => kv.1 == lowerStr key) with
    | some kv => kv.2
    | none => key
  ({ success := true }, [BrowserEffect.keyPress mapped])

/-- `actions._scroll`. -/
def scrollAction (args : ActionArgs) : ExecResult × List BrowserEffect :=
  let x := args.x.getD 500
  let y := args.y.getD 500
  let dx := args.delta_x.getD (args.scroll_x.getD 0)
  let dy := args.delta_y.getD (args.scroll_y.getD 0)
  let ax := denormalize_x x none
  let ay := denormalize_y y none
  ({ success := true }, [BrowserEffect.mouseMove ax ay, BrowserEffect.wheel dx dy])

/-- `actions._scroll_document`. -/
def scrollDocument (args : ActionArgs) : ExecResult × List BrowserEffect :=
  let dx := args.delta_x.getD (args.scroll_x.getD 0)
  let dy0 := args.delta_y.getD (args.scroll_y.getD 300)
  let direction := args.direction.getD "down"
  let dy :=
    if direction == "up" then (if dy0 == 0 then (-300 : Int) else -(dy0.natAbs : Int))
    else if direction == "down" then (if dy0 == 0 then (300 : Int) else (dy0.natAbs : Int))
    else dy0
  ({ success := true }, [BrowserEffect.wheel dx dy])

/-- `actions._execute_action_internal`: one branch per recognized function
name, in source order.  The CAPTCHA solver's outcome is the external
`captchaSolved` input. -/
def executeActionInternal (page : PageState) (captchaSolved : Bool)
    (fname : String) (args : ActionArgs) : ExecResult × List BrowserEffect :=
  if fname == "open_web_browser" then
    let current := if page.isClosed then "" else page.url
    if current != "" && current != "about:blank" && !current.startsWith "chrome:" then
      ({ success := true, url := some current }, [])
    else
      ({ success := true }, [BrowserEffect.goto "https://www.google.com"])
  else if fname == "navigate" || fname == "go_to_url" then
    let url := args.url.getD "https://www.google.com"
    ({ success := true, url := some url }, [BrowserEffect.goto url, BrowserEffect.sleep])
  else if fname == "go_back" then
    ({ success := true }, [BrowserEffect.back])
  else if fname == "go_forward" then
    ({ success := true }, [BrowserEffect.forward])
  else if fname == "refresh" then
    ({ success := true }, [BrowserEffect.reload])
  else if fname == "click_at" then
    let ax := denormalize_x (args.x.getD 0) none
    let ay := denormalize_y (args.y.getD 0) none
    ({ success := true, x := some ax, y := some ay }, [BrowserEffect.mouseClick ax ay])
  else if fname == "double_click_at" then
    let ax := denormalize_x (args.x.getD 0) none
    let ay := denormalize_y (args.y.getD 0) none
    ({ success := true, x := some ax, y := some ay }, [BrowserEffect.mouseDblClick ax ay])
  else if fname == "right_click_at" then
    let ax := denormalize_x (args.x.getD 0) none
    let ay := denormalize_y (args.y.getD 0) none
    ({ success := true, x := some ax, y := some ay }, [BrowserEffect.mouseRightClick ax ay])
  else if fname == "hover_at" then
    let ax := denormalize_x (args.x.getD 0) none
    let ay := denormalize_y (args.y.getD 0) none
    ({ success := true, x := some ax, y := some ay }, [BrowserEffect.mouseMove ax ay])
  else if fname == "type_text" then
    let text := args.text.getD ""
    ({ success := true, text := some text }, [BrowserEffect.keyType text])
  else if fname == "type_text_at" then
    typeTextAt args
  else if fname == "press_key" || fname == "key" then
    pressKey args
  else if fname == "scroll" then
    scrollAction args
  else if fname == "scroll_down" then
    let amount := args.amount.getD 300
    ({ success := true }, [BrowserEffect.wheel 0 amount])
  else if fname == "scroll_up" then
    let amount := args.amount.getD 300
    ({ success := true }, [BrowserEffect.wheel 0 (-amount)])
  else if fname == "scroll_document" then
    scrollDocument args
  else if fname == "search" then
    let query := args.query.getD (args.text.getD "")
    ({ success := true }, [BrowserEffect.keyType query, BrowserEffect.keyPress "Enter"])
  else if fname == "wait" then
    ({ success := true }, [BrowserEffect.sleep])
  else if fname == "solve_captcha" then
    ({ success := captchaSolved }, [BrowserEffect.solveCaptcha])
  else
    ({ success := false, error := some ("Unknown function: " ++ fname) }, [])

/-- `config.SKIP_SCREENSHOT_ACTIONS`. -/
def SKIP_SCREENSHOT_ACTIONS : List String := ["hover_at", "wait"]

/-- The five dispatcher branches that perform a pointer operation at
model-supplied coordinates. -/
def POINTER_ACTIONS : List String :=
  ["click_at", "double_click_at", "right_click_at", "hover_at", "type_text_at"]

/-- `actions.should_skip_screenshot`: return `False` on the first executed
action whose name is outside the allow-list, otherwise `len(results) > 0`.
Each result item is `(function_name, result, has_safety_decision)`. -/
def should_skip_screenshot (results : List (String × ExecResult × Bool)) : Bool :=
  if results.all (fun item => SKIP_SCREENSHOT_ACTIONS.contains item.1) then
    decide (0 < results.length)
  else false

/-! ## The per-step agent loop (`main.run`, `actions._check_safety`,
`actions.execute_function_calls`)

`main.run` executes each plan step with `for iteration in range(5)`: call
the model, record token usage on the policy when the response carries
usage metadata (`safety_policy.record_action(...)`, `main.py` line 227),
stop when the response holds no function call, otherwise dispatch every
call through `actions.execute_action`, whose `_check_safety` consults the
policy and calls `record_action()` for each allowed action
(`actions.py` line 72).  The model is an external input, given to the
loop as the list of responses it would return on successive calls; an
exhausted list models an API error, which breaks the loop. -/

/-- One function call of a model response, as seen by
`actions._check_safety`: the function name, the `str(args)` rendering used
in the action description, and the URL the check receives
(`args.get("url", "") or current_url`). -/
structure FnCall where
  fname : String
  argsRepr : String
  url : String
deriving DecidableEq, Repr

/-- One model response: `candidates_token_count` when usage metadata is
present, and the function calls of the candidate, in order. -/
structure TurnResponse where
  usage : Option Nat
  calls : List FnCall
deriving DecidableEq, Repr

/-- The loop-relevant state of one step execution: the policy object plus
instrumentation counters (number of `generate_content` calls issued,
number of actions dispatched after an allowing check, number blocked). -/
structure LoopState where
  policy : PolicyState
  modelCalls : Nat
  allowedDispatched : Nat
  blockedCount : Nat
deriving DecidableEq, Repr

/-- `actions._check_safety` followed by dispatch, for one function call:
build `action_desc = f"{fname} {str(args)}"`, run `check_safety`; if it
allows, call `record_action()` (no token argument, so 0) and execute;
otherwise return the blocked result dict. -/
def dispatchCall (now : Nat) (st : LoopState) (c : FnCall) : LoopState :=
  let desc := c.fname ++ " " ++ c.argsRepr
  let res := checkSafety st.policy desc c.url "" now
  if res.1 then
    { st with policy := recordAction res.2.2 0,
              allowedDispatched := st.allowedDispatched + 1 }
  else
    { st with policy := res.2.2, blockedCount := st.blockedCount + 1 }

/-- `actions.execute_function_calls`: dispatch every call of the response
in order (a blocked call never stops the iteration). -/
def dispatchCalls (now : Nat) (st : LoopState) (cs : List FnCall) : LoopState :=
  cs.foldl (dispatchCall now) st

/-- One iteration prefix of the `main.run` agent loop: count the model
call, and when the response carries usage metadata, `record_action` the
candidate token count (`main.py` line 227). -/
def applyTurn (st : LoopState) (r : TurnResponse) : LoopState :=
  let st := { st with modelCalls := st.modelCalls + 1 }
  match r.usage with
  | some t => { st with policy := recordAction st.policy t }
  | none => st

/-- The `for iteration in range(5)` agent loop of `main.run`: stop when the
fuel runs out, when the model call fails (no further response), or when the
response has no function call; otherwise dispatch the calls and continue. -/
def stepLoop (now : Nat) : Nat → List TurnResponse → LoopState → LoopState
  | 0, _, st => st
  | _ + 1, [], st => st
  | n + 1, r :: rest, st =>
      let st := applyTurn st r
      if r.calls.isEmpty then st
      else stepLoop now n rest (dispatchCalls now st r.calls)

/-- Executing one plan step: run the agent loop with its bound of 5 model
turns, starting from the given policy, after which `main.run` proceeds to
validation. -/
def runStep (turns : List TurnResponse) (p : PolicyState) (now : Nat) : LoopState :=
  stepLoop now 5 turns { policy := p, modelCalls := 0,
                         allowedDispatched := 0, blockedCount := 0 }

/-! ## Visual validation parsing (`utils/visual_validator.py`)

`VisualValidator.validate` sends the screenshot to the model and hands the
response text to `_parse_validation_response`.  The `json.loads` call is
the Python standard library; it is passed in as a function returning
either a decoded JSON value or a `json.JSONDecodeError`. -/

/-- A Python value decoded from JSON. -/
inductive PyJson where
  | null
  | bool (b : Bool)
  | num (q : ℚ)
  | str (s : String)
  | arr (xs : List PyJson)
  | obj (kvs : List (String × PyJson))

/-- Python `dict.get(key, default)` on a decoded JSON object. -/
def dictGet (kvs : List (String × PyJson)) (k : String) (default : PyJson) : PyJson :=
  match kvs.find? (fun kv => kv.1 == k) with
  | some kv => kv.2
  | none => default

/-- `ValidationResult` as `_parse_validation_response` builds it: the
dataclass does not enforce field types, so each field holds whatever JSON
value `dict.get` produced. -/
structure PyValidationResult where
  success : PyJson
  reason : PyJson
  confidence : PyJson
  error_type : PyJson

/-- Python `str.strip()`: drop leading and trailing whitespace. -/
def trimStr (s : String) : String :=
  String.mk (((s.data.dropWhile Char.isWhitespace).reverse.dropWhile
    Char.isWhitespace).reverse)

/-- The markdown code fence delimiter. -/
def fenceStr : String := "```"

/-- The characters before the next code fence (used to realize
`text.split("\x60\x60\x60")[1]` for a text that starts with a fence:
the first split segment is empty, and the second is everything after the
leading fence up to the next fence or the end). -/
def takeUntilFence : List Char → List Char
  | [] => []
  | c :: cs =>
      if startsWithCh fenceStr.data (c :: cs) then []
      else c :: takeUntilFence cs

/-- `VisualValidator._clean_json_response`: strip, drop a leading markdown
fence (taking the text between the first fence and the next, guarded by
`startswith`, so the index access cannot fail), drop a leading `json` tag,
strip again. -/
def cleanJsonResponse (text : String) : String :=
  let t0 := trimStr text
  let t1 :=
    if startsWithCh fenceStr.data t0.data then
      let ta := String.mk (takeUntilFence (t0.data.drop 3))
      if startsWithCh "json".data ta.data then String.mk (ta.data.drop 4) else ta
    else t0
  trimStr t1

/-- `VisualValidator._parse_validation_response`: clean the text, decode it
with `json.loads`, and read the fields with `dict.get`.  The `except`
clause catches only `json.JSONDecodeError`; when the decoded value is not a
dict, the `result.get` attribute accesses raise `AttributeError`, which
propagates (`Except.error`). -/
def parseValidationResponse (loads : String → Except Unit PyJson)
    (text : String) : Except String PyValidationResult :=
  let cleaned := cleanJsonResponse text
  match loads cleaned with
  | Except.error _ =>
      Except.ok
        { success := PyJson.bool false,
          reason := PyJson.str ("Validation parsing error: " ++
            String.mk (cleaned.data.take 100)),
          confidence := PyJson.num 0,
          error_type := PyJson.str "unexpected" }
  | Except.ok v =>
      match v with
      | PyJson.obj kvs =>
          Except.ok
            { success := dictGet kvs "success" (PyJson.bool false),
              reason := dictGet kvs "reason" (PyJson.str "Unknown"),
              confidence := dictGet kvs "confidence" (PyJson.num (1 / 2)),
              error_type := dictGet kvs "error_type" PyJson.null }
      | _ => Except.error "AttributeError"

/-! ## Re-normalization (`utils/dom_extractor.py`) -/

/-- `dom_extractor.normalize_coordinates`: convert pixel coordinates back
to the 0-1000 scale against the same viewport,
`(int((x / SCREEN_WIDTH) * 1000), int((y / SCREEN_HEIGHT) * 1000))`.
For the non-negative pixel values at hand, `int` of the real quotient is
the floor, i.e. Nat division. -/
def normalize_coordinates (x y : Nat) : Nat × Nat :=
  (x * 1000 / SCREEN_WIDTH, y * 1000 / SCREEN_HEIGHT)

/-! ## Helper lemmas about the wildcard matcher -/

theorem tryDrops_of_here (f : List Char → Bool) (ts : List Char)
    (h : f ts = true) : tryDrops f ts = true := by
  cases ts with
  | nil => simpa [tryDrops] using h
  | cons t ts => simp [tryDrops, h]

theorem tryDrops_mono (f g : List Char → Bool)
    (hfg : ∀ u, f u = true → g u = true) :
    ∀ ts, tryDrops f ts = true → tryDrops g ts = true := by
  intro ts
  induction ts with
  | nil => simpa [tryDrops] using hfg []
  | cons t ts ih =>
      simp only [tryDrops, Bool.or_eq_true]
      rintro (h | h)
      · exact Or.inl (hfg _ h)
      · exact Or.inr (ih h)

theorem rFull_append_star :
    ∀ rs ts, rFull rs ts = true → rFull (rs ++ [RElem.star]) ts = true := by
  intro rs
  induction rs with
  | nil =>
      intro ts h
      cases ts with
      | nil => decide
      | cons t ts => simp [rFull] at h
  | cons r rs ih =>
      cases r with
      | lit c =>
          intro ts h
          cases ts with
          | nil => simp [rFull] at h
          | cons t ts =>
              simp only [rFull, Bool.and_eq_true] at h ⊢
              exact ⟨h.1, ih ts h.2⟩
      | star =>
          intro ts h
          simp only [rFull] at h ⊢
          exact tryDrops_mono _ _ (fun u hu => ih u hu) ts h

theorem rFull_cons_star (rs : List RElem) (ts : List Char)
    (h : rFull rs ts = true) : rFull (RElem.star :: rs) ts = true := by
  simp only [rFull]
  exact tryDrops_of_here _ _ h

/-- A glob full match (the `fnmatch` reading of a blocked-domain pattern)
implies a match under the code's `_match_pattern` regex search. -/
theorem globMatch_implies_searchMatch (t p : String)
    (h : globMatch t p = true) : searchMatch t p = true := by
  unfold globMatch at h
  unfold searchMatch
  exact rFull_cons_star _ _ (rFull_append_star _ _ h)

/-! ## Claim theorems -/

/-- C3: for every URL matching a configured blocked-domain glob pattern
(e.g. `*.paypal.com`) and every action description, `check_safety` returns
`allowed = false` with a reason naming the matched pattern (the first
blocked-domain pattern the URL matches under `_match_pattern`), and exactly
one violation entry is appended to the policy's violation list by that
call. -/
theorem blocked_domain_glob_denied (s : PolicyState) (action url target : String)
    (now : Nat)
    (h : ∃ p ∈ BLOCKED_DOMAINS, globMatch (lowerStr url) p = true) :
    (checkSafety s action url target now).1 = false ∧
    (∃ q ∈ BLOCKED_DOMAINS, searchMatch (lowerStr url) q = true ∧
      (checkSafety s action url target now).2.1 =
        "Domain matches blocked pattern: " ++ q) ∧
    ∃ v, (checkSafety s action url target now).2.2.violations =
        s.violations ++ [v] ∧ v.violation_type = "blocked_domain" := by
  obtain ⟨p, hp, hm⟩ := h
  have hsearch : searchMatch (lowerStr url) p = true :=
    globMatch_implies_searchMatch _ _ hm
  have hurl : (url == "") = false := by
    rcases eq_or_ne url "" with rfl | hne
    · exfalso
      have hempty : ∀ q ∈ BLOCKED_DOMAINS, globMatch (lowerStr "") q = false := by
        decide
      simp [hempty p hp] at hm
    · simpa using hne
  have hfind : (BLOCKED_DOMAINS.find? (fun q => searchMatch (lowerStr url) q)).isSome :=
    List.find?_isSome.mpr ⟨p, hp, hsearch⟩
  obtain ⟨q, hq⟩ := Option.isSome_iff_exists.mp hfind
  have hqmem : q ∈ BLOCKED_DOMAINS := List.mem_of_find?_eq_some hq
  have hqmatch : searchMatch (lowerStr url) q = true := List.find?_some hq
  have hdom : isDomainBlocked url =
      (true, "Domain matches blocked pattern: " ++ q) := by
    simp [isDomainBlocked, hurl, hq]
  have hres : checkSafety s action url target now =
      (false, "Domain matches blocked pattern: " ++ q,
        logViolation s "blocked_domain" action url
          ("Domain matches blocked pattern: " ++ q) now) := by
    simp [checkSafety, hdom]
  refine ⟨by simp [hres], ⟨q, hqmem, hqmatch, by simp [hres]⟩, ?_⟩
  exact ⟨{ timestamp := now, violation_type := "blocked_domain", action := action,
           url := url, details := "Domain matches blocked pattern: " ++ q,
           blocked := true },
    by simp [hres, logViolation], rfl⟩

/-- Witness for C3 at a concrete blocked URL. -/
theorem blocked_domain_glob_denied_witness :
    (∃ p ∈ BLOCKED_DOMAINS,
        globMatch (lowerStr "https://www.paypal.com") p = true) ∧
    ((checkSafety (initPolicy defaultScope 0) "click login"
        "https://www.paypal.com" "" 0).1 = false ∧
      (∃ q ∈ BLOCKED_DOMAINS,
          searchMatch (lowerStr "https://www.paypal.com") q = true ∧
          (checkSafety (initPolicy defaultScope 0) "click login"
              "https://www.paypal.com" "" 0).2.1 =
            "Domain matches blocked pattern: " ++ q) ∧
      ∃ v, (checkSafety (initPolicy defaultScope 0) "click login"
              "https://www.paypal.com" "" 0).2.2.violations =
          (initPolicy defaultScope 0).violations ++ [v] ∧
          v.violation_type = "blocked_domain") :=
  ⟨by decide,
    blocked_domain_glob_denied (initPolicy defaultScope 0) "click login"
      "https://www.paypal.com" "" 0 (by decide)⟩

/-- Effect of `n` successive `record_action(tok)` calls on a policy. -/
theorem recordAction_iterate (tok : Nat) (s : PolicyState) :
    ∀ n, ((fun st => recordAction st tok)^[n] s).scope = s.scope ∧
      ((fun st => recordAction st tok)^[n] s).action_count = s.action_count + n ∧
      ((fun st => recordAction st tok)^[n] s).token_count = s.token_count + n * tok ∧
      ((fun st => recordAction st tok)^[n] s).start_time = s.start_time ∧
      ((fun st => recordAction st tok)^[n] s).violations = s.violations := by
  intro n
  induction n with
  | zero => simp
  | succ n ih =>
      obtain ⟨h1, h2, h3, h4, h5⟩ := ih
      rw [Function.iterate_succ_apply']
      refine ⟨?_, ?_, ?_, ?_, ?_⟩
      · simpa [recordAction] using h1
      · have h := h2
        simp only [recordAction] at h ⊢
        omega
      · have h := h3
        simp only [recordAction] at h ⊢
        rw [Nat.succ_mul]
        omega
      · simpa [recordAction] using h4
      · simpa [recordAction] using h5

/-- C4: after `record_action` has been called `max_actions` times, a
`check_safety` call whose URL and action match no blocked domain, keyword
or scope rule, and whose token and time budgets are not yet exhausted,
returns `allowed = false` with a reason citing the action-count limit (and
logs a `limit_exceeded` violation). -/
theorem max_actions_exhausted_denied (scope : SessionScope) (tok start now : Nat)
    (action url target : String) (s : PolicyState)
    (hs : s = (fun st => recordAction st tok)^[scope.max_actions] (initPolicy scope start))
    (hdom : (isDomainBlocked url).1 = false)
    (hkey : (isActionBlocked action target).1 = false)
    (hscope : url ≠ "" → (isInScope s url).1 = true)
    (htok : s.token_count < scope.max_tokens)
    (htime : now - start < 60 * scope.timeout_minutes) :
    (checkSafety s action url target now).1 = false ∧
    (checkSafety s action url target now).2.1 =
      "Max actions exceeded: " ++ toString scope.max_actions ++ "/" ++
        toString scope.max_actions ∧
    ∃ v, (checkSafety s action url target now).2.2.violations =
        s.violations ++ [v] ∧ v.violation_type = "limit_exceeded" := by
  obtain ⟨hsc, hcount, -, hstart, -⟩ :=
    recordAction_iterate tok (initPolicy scope start) scope.max_actions
  rw [← hs] at hsc hcount hstart
  simp only [initPolicy] at hsc hcount hstart
  rw [Nat.zero_add] at hcount
  have hlim : checkLimits s now =
      (false, "Max actions exceeded: " ++ toString scope.max_actions ++ "/" ++
        toString scope.max_actions) := by
    have hge : s.scope.max_actions ≤ s.action_count := by
      rw [hsc, hcount]
    simp [checkLimits, hge, hcount, hsc]
  have hres : checkSafety s action url target now =
      (false,
        "Max actions exceeded: " ++ toString scope.max_actions ++ "/" ++
          toString scope.max_actions,
        logViolation s "limit_exceeded" action url
          ("Max actions exceeded: " ++ toString scope.max_actions ++ "/" ++
            toString scope.max_actions) now) := by
    rcases eq_or_ne url "" with rfl | hne
    · simp [checkSafety, hdom, hkey, hlim]
    · have hin := hscope hne
      have hne2 : (url == "") = false := by simpa using hne
      simp [checkSafety, hdom, hkey, hlim, hin, hne2]
  refine ⟨by simp [hres], by simp [hres], ?_⟩
  exact ⟨{ timestamp := now, violation_type := "limit_exceeded", action := action,
           url := url,
           details := "Max actions exceeded: " ++ toString scope.max_actions ++
             "/" ++ toString scope.max_actions,
           blocked := true },
    by simp [hres, logViolation], rfl⟩

/-- Witness for C4: a scope of 3 actions, exhausted by three recorded
actions, denies an otherwise clean check. -/
theorem max_actions_exhausted_denied_witness :
    (checkSafety ((fun st => recordAction st 5)^[(3 : Nat)]
        (initPolicy ⟨[], 3, 1000, 30, false⟩ 0)) "click next"
        "https://example.org" "" 10).1 = false ∧
    (checkSafety ((fun st => recordAction st 5)^[(3 : Nat)]
        (initPolicy ⟨[], 3, 1000, 30, false⟩ 0)) "click next"
        "https://example.org" "" 10).2.1 =
      "Max actions exceeded: " ++ toString (3 : Nat) ++ "/" ++ toString (3 : Nat) ∧
    ∃ v, (checkSafety ((fun st => recordAction st 5)^[(3 : Nat)]
            (initPolicy ⟨[], 3, 1000, 30, false⟩ 0)) "click next"
            "https://example.org" "" 10).2.2.violations =
        ((fun st => recordAction st 5)^[(3 : Nat)]
            (initPolicy ⟨[], 3, 1000, 30, false⟩ 0)).violations ++ [v] ∧
        v.violation_type = "limit_exceeded" :=
  max_actions_exhausted_denied ⟨[], 3, 1000, 30, false⟩ 5 0 10 "click next"
    "https://example.org" "" _ rfl (by decide) (by decide)
    (fun _ => by decide) (by decide) (by decide)

/-- C9: with an empty URL, `check_safety` skips both the domain/URL-pattern
check and the scope check, so the call either allows the action (leaving
the policy unchanged) or denies it with a `blocked_keyword` or
`limit_exceeded` violation — never a domain or scope violation. -/
theorem empty_url_only_keyword_or_limit (s : PolicyState) (action target : String)
    (now : Nat) :
    ((checkSafety s action "" target now).1 = true ∧
      (checkSafety s action "" target now).2.2 = s) ∨
    ((checkSafety s action "" target now).1 = false ∧
      ∃ v, (checkSafety s action "" target now).2.2.violations =
          s.violations ++ [v] ∧
        (v.violation_type = "blocked_keyword" ∨
          v.violation_type = "limit_exceeded")) := by
  have hdom : isDomainBlocked "" = (false, "") := rfl
  by_cases hk : (isActionBlocked action target).1 = true
  · right
    refine ⟨?_, ⟨⟨now, "blocked_keyword", action, "",
      (isActionBlocked action target).2, true⟩, ?_, Or.inl rfl⟩⟩ <;>
      simp [checkSafety, hdom, hk, logViolation]
  · have hk2 : (isActionBlocked action target).1 = false := by simpa using hk
    by_cases hl : (checkLimits s now).1 = true
    · left
      constructor <;> simp [checkSafety, hdom, hk2, hl]
    · have hl2 : (checkLimits s now).1 = false := by simpa using hl
      right
      refine ⟨?_, ⟨⟨now, "limit_exceeded", action, "",
        (checkLimits s now).2, true⟩, ?_, Or.inr rfl⟩⟩ <;>
        simp [checkSafety, hdom, hk2, hl2, logViolation]

/-- C10: `check_safety` never modifies the action counter, the token
counter, the scope or the start time, and when it allows the action it also
leaves the violation list unchanged; the counters are incremented by
`record_action`, which never touches the violation list. -/
theorem check_safety_frame (s : PolicyState) (action url target : String)
    (now tok : Nat) :
    (checkSafety s action url target now).2.2.action_count = s.action_count ∧
    (checkSafety s action url target now).2.2.token_count = s.token_count ∧
    (checkSafety s action url target now).2.2.scope = s.scope ∧
    (checkSafety s action url target now).2.2.start_time = s.start_time ∧
    ((checkSafety s action url target now).1 = true →
      (checkSafety s action url target now).2.2.violations = s.violations) ∧
    (recordAction s tok).action_count = s.action_count + 1 ∧
    (recordAction s tok).token_count = s.token_count + tok ∧
    (recordAction s tok).violations = s.violations := by
  simp only [checkSafety]
  split_ifs <;> simp [logViolation, recordAction]

/-- Witness for C10: a concrete allowed check leaves the violation list
empty. -/
theorem check_safety_frame_witness :
    (checkSafety (initPolicy defaultScope 0) "click" "https://example.org" ""
        0).2.2.violations = (initPolicy defaultScope 0).violations :=
  (check_safety_frame (initPolicy defaultScope 0) "click" "https://example.org"
    "" 0 7).2.2.2.2.1 (by decide)

/-- C1 (divergence witnessed on the code): in a step with a single model
turn whose response carries usage metadata and one allowed `click_at`
call, `record_action` fires twice — once from the token-tracking call in
`main.run` and once from `_check_safety` — so the policy's `action_count`
is 2 although exactly one successfully-allowed action was dispatched. -/
theorem record_action_double_count :
    (runStep [⟨some 120, [⟨"click_at", "x: 500, y: 300", ""⟩]⟩]
        (initPolicy defaultScope 0) 0).policy.action_count = 2 ∧
    (runStep [⟨some 120, [⟨"click_at", "x: 500, y: 300", ""⟩]⟩]
        (initPolicy defaultScope 0) 0).allowedDispatched = 1 := by decide

/-- `applyTurn` increments the model-call counter by exactly one. -/
theorem applyTurn_modelCalls (st : LoopState) (r : TurnResponse) :
    (applyTurn st r).modelCalls = st.modelCalls + 1 := by
  cases hr : r.usage <;> simp [applyTurn, hr]

/-- Dispatching one call never touches the model-call counter. -/
theorem dispatchCall_modelCalls (now : Nat) (st : LoopState) (c : FnCall) :
    (dispatchCall now st c).modelCalls = st.modelCalls := by
  simp only [dispatchCall]
  split <;> rfl

/-- Dispatching a batch of calls never touches the model-call counter. -/
theorem dispatchCalls_modelCalls (now : Nat) (cs : List FnCall) :
    ∀ st, (dispatchCalls now st cs).modelCalls = st.modelCalls := by
  induction cs with
  | nil => intro st; rfl
  | cons c cs ih =>
      intro st
      simp only [dispatchCalls, List.foldl_cons] at ih ⊢
      rw [ih, dispatchCall_modelCalls]

/-- The agent loop issues at most `n` model calls with fuel `n`. -/
theorem stepLoop_modelCalls_le (now : Nat) :
    ∀ n turns st, (stepLoop now n turns st).modelCalls ≤ st.modelCalls + n := by
  intro n
  induction n with
  | zero => intro turns st; simp [stepLoop]
  | succ n ih =>
      intro turns st
      cases turns with
      | nil => simp [stepLoop]
      | cons r rest =>
          simp only [stepLoop]
          by_cases hc : r.calls.isEmpty
          · simp [hc, applyTurn_modelCalls]
          · simp only [hc, Bool.false_eq_true, if_false]
            have h1 := ih rest (dispatchCalls now (applyTurn st r) r.calls)
            rw [dispatchCalls_modelCalls, applyTurn_modelCalls] at h1
            omega

/-- With enough responses that all carry calls, the loop uses its fuel
exactly. -/
theorem stepLoop_modelCalls_exact (now : Nat) :
    ∀ n turns st, (∀ r ∈ turns, r.calls ≠ []) → n ≤ turns.length →
      (stepLoop now n turns st).modelCalls = st.modelCalls + n := by
  intro n
  induction n with
  | zero => intro turns st _ _; simp [stepLoop]
  | succ n ih =>
      intro turns st hall hlen
      cases turns with
      | nil => simp at hlen
      | cons r rest =>
          have hr : r.calls ≠ [] := hall r (List.mem_cons_self r rest)
          have hc : r.calls.isEmpty = false := by
            simpa [List.isEmpty_iff] using hr
          simp only [stepLoop, hc, Bool.false_eq_true, if_false]
          have h1 := ih rest (dispatchCalls now (applyTurn st r) r.calls)
            (fun q hq => hall q (List.mem_cons_of_mem r hq))
            (by simpa using Nat.le_of_succ_le_succ hlen)
          rw [dispatchCalls_modelCalls, applyTurn_modelCalls] at h1
          omega

/-- C5: executing one step performs at most 5 model turns; and when every
model response contains at least one function call (and responses never
run out), the loop stops after exactly 5 turns and proceeds to
validation. -/
theorem step_turn_bound (turns : List TurnResponse) (p : PolicyState) (now : Nat) :
    (runStep turns p now).modelCalls ≤ 5 ∧
    ((∀ r ∈ turns, r.calls ≠ []) → 5 ≤ turns.length →
      (runStep turns p now).modelCalls = 5) := by
  constructor
  · have h := stepLoop_modelCalls_le now 5 turns
      { policy := p, modelCalls := 0, allowedDispatched := 0, blockedCount := 0 }
    simpa [runStep] using h
  · intro h1 h2
    have h := stepLoop_modelCalls_exact now 5 turns
      { policy := p, modelCalls := 0, allowedDispatched := 0, blockedCount := 0 }
      h1 h2
    simpa [runStep] using h

/-- Witness for C5: a stub model that always returns one action is cut off
after exactly 5 turns. -/
theorem step_turn_bound_witness :
    (runStep (List.replicate 5 ⟨none, [⟨"wait", "", ""⟩]⟩)
        (initPolicy defaultScope 0) 0).modelCalls = 5 :=
  (step_turn_bound (List.replicate 5 ⟨none, [⟨"wait", "", ""⟩]⟩)
    (initPolicy defaultScope 0) 0).2 (by decide) (by decide)

/-- C2 (counterexample): a coordinate greater than 1000 is not left
unchanged as an already-pixel value: `click_at` with `x = 2000` on the
1440-wide viewport dispatches pixel `x = 2880`, not 2000 (the cited
`helpers.denormalize_x` always scales by `width / 1000`). -/
theorem pointer_pixel_passthrough_fails :
    (executeActionInternal ⟨"https://www.google.com", false⟩ false "click_at"
        { x := some 2000, y := some 500 }).1.x = some 2880 ∧
    (2880 : Nat) ≠ 2000 := by decide

/-- C2 (amended): for every pointer action, a supplied coordinate is
always denormalized as `⌊v * dimension / 1000⌋` against the configured
viewport before the pointer operation — including coordinates greater than
1000, which are scaled in the same way rather than passed through as
pixels. -/
theorem pointer_coords_always_scaled (fname : String) (page : PageState)
    (cap : Bool) (args : ActionArgs) (x y : Nat)
    (hmem : fname ∈ POINTER_ACTIONS)
    (hx : args.x = some x) (hy : args.y = some y) :
    (executeActionInternal page cap fname args).1.x =
      some (denormalize_x x none) ∧
    (executeActionInternal page cap fname args).1.y =
      some (denormalize_y y none) := by
  simp only [POINTER_ACTIONS, List.mem_cons, List.not_mem_nil, or_false] at hmem
  rcases hmem with rfl | rfl | rfl | rfl | rfl <;>
    simp [executeActionInternal, typeTextAt, hx, hy]

/-- Witness for C2's amended claim at a concrete out-of-range input. -/
theorem pointer_coords_always_scaled_witness :
    (executeActionInternal ⟨"", true⟩ false "hover_at"
        { x := some 1200, y := some 40 }).1.x =
      some (denormalize_x 1200 none) ∧
    (executeActionInternal ⟨"", true⟩ false "hover_at"
        { x := some 1200, y := some 40 }).1.y =
      some (denormalize_y 40 none) :=
  pointer_coords_always_scaled "hover_at" ⟨"", true⟩ false
    { x := some 1200, y := some 40 } 1200 40 (by decide) rfl rfl

/-- C6 (counterexample): a model response whose text decodes to a JSON
number — which fails to parse as the expected structured answer object —
does not produce the deterministic failure result: the uncaught attribute
accesses on a non-dict raise, so `validate` propagates an
`AttributeError` instead of returning a `ValidationResult`. -/
theorem parse_nondict_raises :
    parseValidationResponse
      (fun s => if s == "3" then Except.ok (PyJson.num 3) else Except.error ())
      "3" = Except.error "AttributeError" := rfl

/-- C6 (amended): whenever `json.loads` itself fails on the cleaned
response text (`json.JSONDecodeError`), `_parse_validation_response`
returns — without raising — the deterministic failure result with
`success = false`, `confidence = 0` and `error_type = "unexpected"`;
a text that decodes to a non-object JSON value instead raises
`AttributeError`. -/
theorem parse_decode_failure_returns_failure
    (loads : String → Except Unit PyJson) (text : String)
    (h : loads (cleanJsonResponse text) = Except.error ()) :
    parseValidationResponse loads text =
      Except.ok
        { success := PyJson.bool false,
          reason := PyJson.str ("Validation parsing error: " ++
            String.mk ((cleanJsonResponse text).data.take 100)),
          confidence := PyJson.num 0,
          error_type := PyJson.str "unexpected" } := by
  simp only [parseValidationResponse]
  rw [h]

/-- Witness for C6's amended claim on a concrete undecodable text. -/
theorem parse_decode_failure_returns_failure_witness :
    parseValidationResponse (fun _ => Except.error ()) "not json at all" =
      Except.ok
        { success := PyJson.bool false,
          reason := PyJson.str ("Validation parsing error: " ++
            String.mk ((cleanJsonResponse "not json at all").data.take 100)),
          confidence := PyJson.num 0,
          error_type := PyJson.str "unexpected" } :=
  parse_decode_failure_returns_failure (fun _ => Except.error ())
    "not json at all" rfl

/-- C7: a screenshot is skipped exactly when at least one action was
dispatched and every dispatched action's name is in the configured
skip-screenshot allow-list (`hover_at`, `wait`); equivalently, a fresh
screenshot is taken whenever some action outside the allow-list ran or no
action ran at all. -/
theorem skip_screenshot_iff (results : List (String × ExecResult × Bool)) :
    should_skip_screenshot results = true ↔
      results ≠ [] ∧ ∀ item ∈ results, item.1 ∈ SKIP_SCREENSHOT_ACTIONS := by
  unfold should_skip_screenshot
  split
  next hall =>
    rw [decide_eq_true_iff, List.all_eq_true] at *
    constructor
    · intro hlen
      refine ⟨?_, ?_⟩
      · intro hnil
        subst hnil
        simp at hlen
      · intro item hit
        have hc := hall item hit
        simpa using hc
    · rintro ⟨hne, -⟩
      cases results with
      | nil => exact absurd rfl hne
      | cons a l => simp
  next hall =>
    constructor
    · intro h
      simp at h
    · rintro ⟨hne, hmem⟩
      exfalso
      apply hall
      rw [List.all_eq_true]
      intro item hit
      simpa using hmem item hit

/-- Witness for C7: a lone hover skips the screenshot. -/
theorem skip_screenshot_iff_witness :
    should_skip_screenshot
        [("hover_at", ⟨true, none, none, none, none, none⟩, false)] = true :=
  (skip_screenshot_iff
    [("hover_at", ⟨true, none, none, none, none, none⟩, false)]).mpr (by decide)

set_option maxRecDepth 4000

/-- C8: for coordinates in the normalized range `0..1000`, denormalizing
against the configured 1440×900 viewport and re-normalizing the resulting
pixel pair with `dom_extractor.normalize_coordinates` against the same
viewport recovers the original values within one unit of rounding
error. -/
theorem denormalize_roundtrip (x y : Nat) (hx : x ≤ 1000) (hy : y ≤ 1000) :
    (normalize_coordinates (denormalize_x x none) (denormalize_y y none)).1 ≤ x ∧
    x ≤ (normalize_coordinates (denormalize_x x none) (denormalize_y y none)).1 + 1 ∧
    (normalize_coordinates (denormalize_x x none) (denormalize_y y none)).2 ≤ y ∧
    y ≤ (normalize_coordinates (denormalize_x x none) (denormalize_y y none)).2 + 1 := by
  have hxf : ∀ z : Fin 1001,
      (normalize_coordinates (denormalize_x z.val none) 0).1 ≤ z.val ∧
      z.val ≤ (normalize_coordinates (denormalize_x z.val none) 0).1 + 1 := by decide
  have hyf : ∀ z : Fin 1001,
      (normalize_coordinates 0 (denormalize_y z.val none)).2 ≤ z.val ∧
      z.val ≤ (normalize_coordinates 0 (denormalize_y z.val none)).2 + 1 := by decide
  have h1 := hxf ⟨x, by omega⟩
  have h2 := hyf ⟨y, by omega⟩
  exact ⟨h1.1, h1.2, h2.1, h2.2⟩

/-- Witness for C8 at a concrete coordinate pair. -/
theorem denormalize_roundtrip_witness :
    (normalize_coordinates (denormalize_x 707 none) (denormalize_y 900 none)).1 ≤ 707 ∧
    707 ≤ (normalize_coordinates (denormalize_x 707 none) (denormalize_y 900 none)).1 + 1 ∧
    (normalize_coordinates (denormalize_x 707 none) (denormalize_y 900 none)).2 ≤ 900 ∧
    900 ≤ (normalize_coordinates (denormalize_x 707 none) (denormalize_y 900 none)).2 + 1 :=
  denormalize_roundtrip 707 900 (by decide) (by decide)
